import Mathlib

/-!
Shallow embedding of the CRUD request lifecycle of the repository's two API
variants:

* the production app (`app/models/item.py`, `app/models/user.py`,
  `app/routers/items.py`, `app/routers/users.py`, `app/routers/auth.py`), and
* the task-management variant (`2_fastpapi_db.py`).

The relational store is modelled as a list of rows in insertion (rowid) order
together with the auto-increment counter.  A route handler is a pure function
from the store and the parsed request to a response value and the new store.
Python floats carry the item prices; the handlers only store and compare them
(no arithmetic is ever performed on a price), so exact rationals (`Rat`) model
them faithfully for the properties below.
-/

namespace Spec2Proof

/-- Outcome of one request handler, as the framework sees it: a normal return
value, a raised `HTTPException(status_code, detail)`, or an exception from the
database layer that no handler catches (an integrity violation surfacing as an
internal server error). -/
inductive Resp (α : Type) where
  | ok : α → Resp α
  | httpError : Nat → String → Resp α
  | integrityError : Resp α
deriving Repr, DecidableEq

/-- The HTTP status produced by the framework from a handler outcome:
a normal return is serialized with the route's declared success code
(201 for the create routes, 200 otherwise), a raised `HTTPException` keeps its
status code, and an uncaught database error becomes a 500. -/
def respStatus (success : Nat) : Resp α → Nat
  | .ok _ => success
  | .httpError c _ => c
  | .integrityError => 500

/-! ### Item models (`app/models/item.py`) -/

/-- `Item(ItemBase, table=True)`: the stored row.  `ItemBase` contributes
`name`, `description: Optional[str] = None` and `price: float = Field(gt=0)`;
the table class adds the optional primary key `id` and
`owner_id: Optional[int] = Field(default=None, foreign_key="user.id")`. -/
structure Item where
  name : String
  description : Option String
  price : Rat
  id : Option Nat
  owner_id : Option Nat
deriving Repr, DecidableEq

/-- `ItemCreate(ItemBase)`: exactly the `ItemBase` fields; no `id`, no
`owner_id`. -/
structure ItemCreate where
  name : String
  description : Option String
  price : Rat
deriving Repr, DecidableEq

/-- `ItemUpdate(SQLModel)`: every field optional and unconstrained.  The outer
`Option` is pydantic's set/unset flag (`exclude_unset`); for `description` the
inner value is itself nullable, so an explicit `"description": null` (set to
`None`) is distinct from an absent key. -/
structure ItemUpdate where
  name : Option String
  description : Option (Option String)
  price : Option Rat
deriving Repr, DecidableEq

/-- `ItemPublic(ItemBase)`: the response projection; `id` is required. -/
structure ItemPublic where
  name : String
  description : Option String
  price : Rat
  id : Nat
  owner_id : Option Nat
deriving Repr, DecidableEq

/-- Serialization through `response_model=ItemPublic`.  Stored rows always have
an assigned `id`, so the `getD` default is never exercised on a committed row. -/
def Item.toPublic (it : Item) : ItemPublic :=
  { name := it.name, description := it.description, price := it.price,
    id := it.id.getD 0, owner_id := it.owner_id }

/-- Request-body validation of an `ItemCreate`: pydantic enforces
`price: float = Field(gt=0)` declared on `ItemBase`. -/
def validItemCreate (p : ItemCreate) : Bool :=
  decide (0 < p.price)

/-- Request-body validation of an `ItemUpdate`: `ItemUpdate` redeclares
`price: Optional[float] = None` with no constraint, so every payload passes. -/
def validItemUpdate (_ : ItemUpdate) : Bool :=
  true

/-- An empty PATCH body: no field set. -/
def emptyItemUpdate : ItemUpdate :=
  { name := none, description := none, price := none }

/-! ### The item store and handlers (`app/routers/items.py`) -/

/-- The `item` table: rows in insertion (rowid) order plus the auto-increment
counter (SQLite assigns ids starting from 1). -/
structure ItemStore where
  items : List Item
  nextId : Nat
deriving Repr, DecidableEq

/-- The empty store after `create_db_and_tables`. -/
def emptyItemStore : ItemStore :=
  { items := [], nextId := 1 }

/-- `session.get(Item, item_id)`: primary-key lookup. -/
def ItemStore.get (s : ItemStore) (item_id : Nat) : Option Item :=
  s.items.find? (fun it => it.id == some item_id)

/-- `session.add` followed by `session.commit()`: a row without an id gets the
auto-increment value; the row is appended to the table. -/
def ItemStore.insert (s : ItemStore) (it : Item) : Item × ItemStore :=
  let assigned := { it with id := some s.nextId }
  (assigned, { items := s.items ++ [assigned], nextId := s.nextId + 1 })

/-- Commit of an in-place mutation: the row with the given id is replaced. -/
def ItemStore.replaceById (s : ItemStore) (item_id : Nat) (new : Item) : ItemStore :=
  { s with items := s.items.map (fun it => if it.id == some item_id then new else it) }

/-- `Item.model_validate(item)` inside `create_item`: builds the table row from
the create payload; `id` and `owner_id` take their declared defaults (`None`). -/
def Item.model_validate (p : ItemCreate) : Item :=
  { name := p.name, description := p.description, price := p.price,
    id := none, owner_id := none }

/-- `create_item` (POST `/items/`, `status_code=201`): validate into a row,
add, commit, refresh, return the stored row (serialized as `ItemPublic`). -/
def create_item (s : ItemStore) (item : ItemCreate) : Resp ItemPublic × ItemStore :=
  let db_item := Item.model_validate item
  let (stored, s') := s.insert db_item
  (.ok stored.toPublic, s')

/-- The POST `/items/` route: FastAPI validates the body against `ItemCreate`
before the handler runs (422 on failure). -/
def postItemsRoute (s : ItemStore) (item : ItemCreate) : Resp ItemPublic × ItemStore :=
  if validItemCreate item then create_item s item
  else (.httpError 422 "validation error", s)

/-- `SELECT ... OFFSET offset LIMIT limit` on rows in insertion order.  SQLite
treats a negative OFFSET as 0 and a negative LIMIT as "no limit". -/
def sqlOffsetLimit (rows : List α) (offset limit : Int) : List α :=
  let afterOffset := if offset < 0 then rows else rows.drop offset.toNat
  if limit < 0 then afterOffset else afterOffset.take limit.toNat

/-- Query-parameter validation of `limit: int = Query(default=100, le=100)`:
only the upper bound is declared. -/
def validLimit (limit : Int) : Bool :=
  decide (limit ≤ 100)

/-- `read_items` (GET `/items/`): the paginated selection, serialized through
`response_model=list[ItemPublic]`. -/
def read_items (s : ItemStore) (offset limit : Int) : List ItemPublic :=
  (sqlOffsetLimit s.items offset limit).map Item.toPublic

/-- The GET `/items/` route with its query-parameter validation. -/
def getItemsRoute (s : ItemStore) (offset limit : Int) : Resp (List ItemPublic) :=
  if validLimit limit then .ok (read_items s offset limit)
  else .httpError 422 "validation error"

/-- `read_item` (GET `/items/{item_id}`): raises
`HTTPException(404, "Item not found")` when the lookup misses. -/
def read_item (s : ItemStore) (item_id : Nat) : Resp ItemPublic :=
  match s.get item_id with
  | none => .httpError 404 "Item not found"
  | some it => .ok it.toPublic

/-- `db_item.sqlmodel_update(item.model_dump(exclude_unset=True))`: only the
keys present in the dump are assigned; `id` and `owner_id` are never in an
`ItemUpdate` dump. -/
def Item.sqlmodel_update (it : Item) (u : ItemUpdate) : Item :=
  { it with
    name := u.name.getD it.name,
    description := u.description.getD it.description,
    price := u.price.getD it.price }

/-- `update_item` (PATCH `/items/{item_id}`): 404 on a missing id, otherwise
apply the set fields, commit, return the stored row. -/
def update_item (s : ItemStore) (item_id : Nat) (item : ItemUpdate) :
    Resp ItemPublic × ItemStore :=
  match s.get item_id with
  | none => (.httpError 404 "Item not found", s)
  | some db_item =>
      let updated := db_item.sqlmodel_update item
      (.ok updated.toPublic, s.replaceById item_id updated)

/-- The PATCH `/items/{item_id}` route with its (vacuous) body validation. -/
def patchItemRoute (s : ItemStore) (item_id : Nat) (item : ItemUpdate) :
    Resp ItemPublic × ItemStore :=
  if validItemUpdate item then update_item s item_id item
  else (.httpError 422 "validation error", s)

/-- `delete_item` (DELETE `/items/{item_id}`): 404 on a missing id, otherwise
remove the row and return `{"ok": True}` (modelled as `ok true`). -/
def delete_item (s : ItemStore) (item_id : Nat) : Resp Bool × ItemStore :=
  match s.get item_id with
  | none => (.httpError 404 "Item not found", s)
  | some _ =>
      (.ok true, { s with items := s.items.filter (fun it => it.id != some item_id) })

/-! ### User models (`app/models/user.py`) and the missing auth service

`app/routers/users.py` and `app/routers/auth.py` import `get_password_hash`,
`verify_password` and `create_access_token` from `app/services/auth.py`, a file
of this repository that is not among the sources; those three are modelled from
the spec below. -/

/-- Modelled from the spec: `get_password_hash` lives in `app/services/auth.py`,
which is absent from the sources.  Spec §4.4 gives `hash(plaintext) -> digest`:
deterministic, one-way, checked only through `verify`.  Modelled as a
deterministic tagging digest; one-wayness is a property of the external
cryptographic library and is outside the embedding. -/
def get_password_hash (plaintext : String) : String :=
  "$2b$digest$" ++ plaintext

/-- Modelled from the spec: `verify_password` lives in `app/services/auth.py`,
absent from the sources.  Spec §4.4: deterministic verification of a plaintext
against a digest, `verify(plaintext, digest) -> bool`. -/
def verify_password (plaintext hashed : String) : Bool :=
  hashed == get_password_hash plaintext

/-- Modelled from the spec: `create_access_token` lives in
`app/services/auth.py`, absent from the sources.  Spec §4.4: an opaque signed
token encoding the identity; its cryptographic content is outside the
embedding, only its dependence on the identity is kept. -/
def create_access_token (sub : String) : String :=
  "jwt$" ++ sub

/-- `Token` response of the login route. -/
structure Token where
  access_token : String
  token_type : String
deriving Repr, DecidableEq

/-- `User(UserBase, table=True)`: `username` and `email` are declared
`unique=True`, `is_active` defaults to `True`; the table class adds the
optional primary key and `hashed_password`. -/
structure User where
  username : String
  email : String
  is_active : Bool
  id : Option Nat
  hashed_password : String
deriving Repr, DecidableEq

/-- `UserCreate(UserBase)`: the base fields plus the plaintext `password`. -/
structure UserCreate where
  username : String
  email : String
  is_active : Bool
  password : String
deriving Repr, DecidableEq

/-- `UserUpdate(SQLModel)`: every field optional; the outer `Option` is
pydantic's set/unset flag. -/
structure UserUpdate where
  username : Option String
  email : Option String
  password : Option String
  is_active : Option Bool
deriving Repr, DecidableEq

/-- An empty PATCH body for a user. -/
def emptyUserUpdate : UserUpdate :=
  { username := none, email := none, password := none, is_active := none }

/-- `UserPublic(UserBase)`: the response projection; no password field of any
kind is declared on it. -/
structure UserPublic where
  username : String
  email : String
  is_active : Bool
  id : Nat
deriving Repr, DecidableEq

/-- Serialization through `response_model=UserPublic`: only the base fields and
the id are picked up; `hashed_password` has no counterpart field. -/
def User.toPublic (u : User) : UserPublic :=
  { username := u.username, email := u.email, is_active := u.is_active,
    id := u.id.getD 0 }

/-- The `user` table: rows in insertion order plus the auto-increment counter. -/
structure UserStore where
  users : List User
  nextId : Nat
deriving Repr, DecidableEq

/-- The empty user table. -/
def emptyUserStore : UserStore :=
  { users := [], nextId := 1 }

/-- `session.get(User, user_id)`: primary-key lookup. -/
def UserStore.get (s : UserStore) (user_id : Nat) : Option User :=
  s.users.find? (fun u => u.id == some user_id)

/-- Commit of an in-place mutation of a user row. -/
def UserStore.replaceById (s : UserStore) (user_id : Nat) (new : User) : UserStore :=
  { s with users := s.users.map (fun u => if u.id == some user_id then new else u) }

/-- The UNIQUE constraints the store enforces at commit time:
`username` and `email` are both declared `unique=True` on `UserBase`. -/
def usersUniqueOk : List User → Bool
  | [] => true
  | u :: rest =>
      rest.all (fun v => u.username != v.username && u.email != v.email)
        && usersUniqueOk rest

/-- `User(username=..., email=..., hashed_password=get_password_hash(...))`
inside `create_user`: `is_active` is not passed and takes its declared default
`True`; the payload's plaintext is hashed at this point and discarded. -/
def User.fromCreate (p : UserCreate) : User :=
  { username := p.username, email := p.email, is_active := true,
    id := none, hashed_password := get_password_hash p.password }

/-- `create_user` (POST `/users/`, `status_code=201`): reject a duplicate
username, then a duplicate email, each with a raised
`HTTPException(400, ...)`; otherwise hash the password, insert, commit and
return the stored row (serialized as `UserPublic`). -/
def create_user (s : UserStore) (user : UserCreate) : Resp UserPublic × UserStore :=
  if (s.users.find? (fun u => u.username == user.username)).isSome then
    (.httpError 400 "Username already registered", s)
  else if (s.users.find? (fun u => u.email == user.email)).isSome then
    (.httpError 400 "Email already registered", s)
  else
    let db_user := User.fromCreate user
    let stored := { db_user with id := some s.nextId }
    (.ok stored.toPublic, { users := s.users ++ [stored], nextId := s.nextId + 1 })

/-- `read_users` (GET `/users/`): the paginated selection. -/
def read_users (s : UserStore) (offset limit : Int) : List UserPublic :=
  (sqlOffsetLimit s.users offset limit).map User.toPublic

/-- The GET `/users/` route with the same `Query(default=100, le=100)`
validation as the items route. -/
def getUsersRoute (s : UserStore) (offset limit : Int) : Resp (List UserPublic) :=
  if validLimit limit then .ok (read_users s offset limit)
  else .httpError 422 "validation error"

/-- `read_user` (GET `/users/{user_id}`): raises
`HTTPException(404, "User not found")` when the lookup misses. -/
def read_user (s : UserStore) (user_id : Nat) : Resp UserPublic :=
  match s.get user_id with
  | none => .httpError 404 "User not found"
  | some u => .ok u.toPublic

/-- The `sqlmodel_update` step of `update_user`: the exclude-unset dump is
applied key by key, except that a present `password` key is popped and
re-inserted as `hashed_password = get_password_hash(password)`. -/
def User.applyUpdate (u : User) (d : UserUpdate) : User :=
  { u with
    username := d.username.getD u.username,
    email := d.email.getD u.email,
    is_active := d.is_active.getD u.is_active,
    hashed_password :=
      match d.password with
      | some p => get_password_hash p
      | none => u.hashed_password }

/-- `update_user` (PATCH `/users/{user_id}`): 404 on a missing id; otherwise
the set fields are applied and committed.  The handler performs no uniqueness
check of its own: when the committed row would duplicate another row's
`username` or `email`, the store's UNIQUE constraint aborts the transaction
and the integrity error propagates out of the handler uncaught. -/
def update_user (s : UserStore) (user_id : Nat) (user : UserUpdate) :
    Resp UserPublic × UserStore :=
  match s.get user_id with
  | none => (.httpError 404 "User not found", s)
  | some db_user =>
      let updated := db_user.applyUpdate user
      let s' := s.replaceById user_id updated
      if usersUniqueOk s'.users then (.ok updated.toPublic, s')
      else (.integrityError, s)

/-- `delete_user` (DELETE `/users/{user_id}`). -/
def delete_user (s : UserStore) (user_id : Nat) : Resp Bool × UserStore :=
  match s.get user_id with
  | none => (.httpError 404 "User not found", s)
  | some _ =>
      (.ok true, { s with users := s.users.filter (fun u => u.id != some user_id) })

/-- `login_for_access_token` (POST `/token`, `app/routers/auth.py`): look the
user up by username; on a missing user or a failed password verification raise
the single `HTTPException(401, "Incorrect username or password")`; otherwise
issue the token. -/
def login_for_access_token (s : UserStore) (username password : String) : Resp Token :=
  match s.users.find? (fun u => u.username == username) with
  | none => .httpError 401 "Incorrect username or password"
  | some user =>
      if verify_password password user.hashed_password then
        .ok { access_token := create_access_token user.username, token_type := "bearer" }
      else .httpError 401 "Incorrect username or password"

/-! ### The task-management variant (`2_fastpapi_db.py`)

Its handlers construct `HTTPException` values and `return` them instead of
raising them, so the framework never sees an exception: the returned object is
handed to response serialization like any success value. -/

/-- `Task(SQLModel, table=True)`: `id: int = Field(default=None,
primary_key=True)` (so a request body may carry an explicit id), plus the three
required fields. -/
structure Task where
  id : Option Nat
  title : String
  description : String
  completed : Bool
deriving Repr, DecidableEq

/-- What a task handler returns to the framework.  `httpExc` is an
`HTTPException` *returned as a value* (never raised); `createdMsg` is the
`{'message': ..., 'task': task}` dict of `create_task`; `deletedMsg` is the
`{"message": ...}` dict of `delete_task`. -/
inductive TaskReturn where
  | task : Task → TaskReturn
  | httpExc : Nat → String → TaskReturn
  | createdMsg : String → Task → TaskReturn
  | deletedMsg : String → TaskReturn
deriving Repr, DecidableEq

/-- The HTTP status the framework produces for a *returned* (not raised) value:
nothing was raised, so the route's default success status (200 — no task route
declares another) applies when the value passes response-model validation.  On
a route with `response_model=Task`, only a genuine `Task` value validates; any
other returned object fails response validation, which surfaces as a server
error (500).  The delete route declares no response model, so any returned
value is serialized as-is with status 200. -/
def taskRouteStatus (hasResponseModel : Bool) : TaskReturn → Nat
  | .task _ => 200
  | _ => if hasResponseModel then 500 else 200

/-- The `task` table. -/
structure TaskStore where
  tasks : List Task
  nextId : Nat
deriving Repr, DecidableEq

/-- The empty task table. -/
def emptyTaskStore : TaskStore :=
  { tasks := [], nextId := 1 }

/-- `session.get(Task, task_id)`. -/
def TaskStore.get (s : TaskStore) (task_id : Nat) : Option Task :=
  s.tasks.find? (fun t => t.id == some task_id)

/-- `session.add(task); session.commit()`: SQLite keeps an explicit primary key
from the payload and otherwise assigns the auto-increment value; the counter
stays above every id in use. -/
def TaskStore.insert (s : TaskStore) (t : Task) : Task × TaskStore :=
  let assigned :=
    match t.id with
    | none => { t with id := some s.nextId }
    | some _ => t
  (assigned,
   { tasks := s.tasks ++ [assigned],
     nextId := max s.nextId (assigned.id.getD 0 + 1) })

/-- Commit of an in-place task mutation. -/
def TaskStore.replaceById (s : TaskStore) (task_id : Nat) (new : Task) : TaskStore :=
  { s with tasks := s.tasks.map (fun t => if t.id == some task_id then new else t) }

/-- `create_task` (POST `/tasks/`, `response_model=Task`, no explicit status
code): add, commit, refresh, and return
`{'message': 'Task created successfully', 'task': task}` — a dict that can
never validate against the declared `response_model=Task`. -/
def create_task (s : TaskStore) (task : Task) : TaskReturn × TaskStore :=
  let (stored, s') := s.insert task
  (.createdMsg "Task created successfully" stored, s')

/-- `read_tasks` (GET `/tasks/`): `select(Task)` with no offset, no limit — the
whole table in insertion order. -/
def read_tasks (s : TaskStore) : List Task :=
  s.tasks

/-- `read_task` (GET `/tasks/{task_id}`): on a miss the handler *returns*
`HTTPException(404, "Task not found")` instead of raising it. -/
def read_task (s : TaskStore) (task_id : Nat) : TaskReturn :=
  match s.get task_id with
  | none => .httpExc 404 "Task not found"
  | some t => .task t

/-- `delete_task` (DELETE `/tasks/{task_id}`, no response model): on a miss the
handler *returns* the `HTTPException`; on a hit it deletes and returns the
success message dict. -/
def delete_task (s : TaskStore) (task_id : Nat) : TaskReturn × TaskStore :=
  match s.get task_id with
  | none => (.httpExc 404 "Task not found", s)
  | some _ =>
      (.deletedMsg "Task deleted successfully",
       { s with tasks := s.tasks.filter (fun t => t.id != some task_id) })

/-- `update_task` (PUT `/tasks/{task_id}`, `response_model=Task`): on a miss
the handler *returns* the `HTTPException`; on a hit it assigns `title`,
`description` and `completed` from the payload (never `id`), commits, and
returns the row. -/
def update_task (s : TaskStore) (task_id : Nat) (updated_task : Task) :
    TaskReturn × TaskStore :=
  match s.get task_id with
  | none => (.httpExc 404 "Task not found", s)
  | some task =>
      let t' := { task with
        title := updated_task.title,
        description := updated_task.description,
        completed := updated_task.completed }
      (.task t', s.replaceById task_id t')

/-! ### One public-API step over the item store

`ItemCreate` and `ItemUpdate` expose no `owner_id`, so the only ways the item
routes touch the table are the three mutating routes below. -/

/-- One mutating request against the item routes, relating the store before to
the store after. -/
inductive ItemApiStep : ItemStore → ItemStore → Prop where
  | create (s : ItemStore) (p : ItemCreate) : ItemApiStep s (postItemsRoute s p).2
  | update (s : ItemStore) (i : Nat) (u : ItemUpdate) : ItemApiStep s (patchItemRoute s i u).2
  | delete (s : ItemStore) (i : Nat) : ItemApiStep s (delete_item s i).2

/-- Stores reachable from the empty table through the public item API. -/
def itemApiReachable (s : ItemStore) : Prop :=
  Relation.ReflTransGen ItemApiStep emptyItemStore s

/-! ### Concrete fixtures for the witnesses and counterexamples -/

/-- A valid create payload for the item routes. -/
def testItemCreate : ItemCreate :=
  { name := "Test Item", description := none, price := 11 }

/-- A stored item row with id 1 and price 5. -/
def storedItem5 : Item :=
  { name := "Test Item", description := none, price := 5, id := some 1, owner_id := none }

/-- A one-row item table. -/
def oneItemStore : ItemStore :=
  { items := [storedItem5], nextId := 2 }

/-- A PATCH body setting only the name. -/
def renameUpdate : ItemUpdate :=
  { name := some "New Name", description := none, price := none }

/-- A PATCH body setting the price to -1: `ItemUpdate` declares no bound on
`price`, so request validation accepts it. -/
def negPriceUpdate : ItemUpdate :=
  { name := none, description := none, price := some (-1) }

/-- A stored user row. -/
def aliceUser : User :=
  { username := "alice", email := "alice@example.com", is_active := true,
    id := some 1, hashed_password := get_password_hash "alicepw" }

/-- A second stored user row. -/
def bobUser : User :=
  { username := "bob", email := "bob@example.com", is_active := true,
    id := some 2, hashed_password := get_password_hash "bobpw" }

/-- A one-row user table. -/
def oneUserStore : UserStore :=
  { users := [aliceUser], nextId := 2 }

/-- A two-row user table. -/
def twoUserStore : UserStore :=
  { users := [aliceUser, bobUser], nextId := 3 }

/-- A PATCH body renaming a user to the already-taken username `alice`. -/
def dupUsernameUpdate : UserUpdate :=
  { username := some "alice", email := none, password := none, is_active := none }

/-- A PATCH body setting only a user's password. -/
def newPasswordUpdate : UserUpdate :=
  { username := none, email := none, password := some "newpw", is_active := none }

/-- A create payload duplicating `alice`'s username. -/
def dupUsernameCreate : UserCreate :=
  { username := "alice", email := "fresh@example.com", is_active := true, password := "pw1" }

/-- A create payload with a fresh username but `alice`'s email. -/
def dupEmailCreate : UserCreate :=
  { username := "carol", email := "alice@example.com", is_active := true, password := "pw2" }

/-- A create payload conflicting with nothing in `oneUserStore`. -/
def freshUserCreate : UserCreate :=
  { username := "dave", email := "dave@example.com", is_active := true, password := "davepw" }

/-- A stored task row. -/
def storedTask : Task :=
  { id := some 1, title := "a", description := "b", completed := false }

/-- A one-row task table. -/
def oneTaskStore : TaskStore :=
  { tasks := [storedTask], nextId := 2 }

/-- A PUT body for the task routes (`id` left at its default). -/
def taskPutPayload : Task :=
  { id := none, title := "x", description := "y", completed := true }

/-- A POST body for `create_task` carrying an explicit client-chosen id. -/
def clientIdTask : Task :=
  { id := some 5, title := "t", description := "d", completed := false }

/-- A task table holding 101 rows. -/
def bigTaskStore : TaskStore :=
  { tasks := (List.range 101).map
      (fun n => { id := some (n + 1), title := "t", description := "d", completed := false }),
    nextId := 102 }

/-! ## Theorems -/

/-- C1: the production routes do map a missing id to a raised
`HTTPException(404, "<Entity> not found")` for Get/Update/Delete of items and
users; but the Task variant's handlers *return* the `HTTPException` instead of
raising it, so on `DELETE /tasks/999` against an empty store the framework
serializes the returned exception object with status 200 — a 2xx response for a
missing id — and on `GET /tasks/999` the returned object fails the route's
`response_model=Task` (server error 500, again not 404).  This refutes "they
never produce a 2xx response for such an id". -/
theorem c1_missing_id_responses :
    read_item emptyItemStore 1 = .httpError 404 "Item not found"
    ∧ (update_item emptyItemStore 1 emptyItemUpdate).1 = .httpError 404 "Item not found"
    ∧ (delete_item emptyItemStore 1).1 = .httpError 404 "Item not found"
    ∧ read_user emptyUserStore 1 = .httpError 404 "User not found"
    ∧ (update_user emptyUserStore 1 emptyUserUpdate).1 = .httpError 404 "User not found"
    ∧ (delete_user emptyUserStore 1).1 = .httpError 404 "User not found"
    ∧ respStatus 200 (read_item emptyItemStore 1) = 404
    ∧ (delete_task emptyTaskStore 999).1 = .httpExc 404 "Task not found"
    ∧ taskRouteStatus false (delete_task emptyTaskStore 999).1 = 200
    ∧ read_task emptyTaskStore 999 = .httpExc 404 "Task not found"
    ∧ taskRouteStatus true (read_task emptyTaskStore 999) = 500 :=
  ⟨rfl, rfl, rfl, rfl, rfl, rfl, rfl, rfl, rfl, rfl, rfl⟩

/-- C3: `update_user` performs no uniqueness check of its own.  Renaming
`bob` (id 2) to the already-taken username `alice` reaches the commit, where
the store's UNIQUE constraint aborts the transaction; the integrity error
propagates uncaught and the framework answers 500, not the claimed
`ConflictError`/400.  The record itself is left unchanged (the transaction is
rolled back), so only the response contract is violated. -/
theorem c3_update_conflict_is_unhandled :
    (update_user twoUserStore 2 dupUsernameUpdate).1 = .integrityError
    ∧ respStatus 200 (update_user twoUserStore 2 dupUsernameUpdate).1 = 500
    ∧ (update_user twoUserStore 2 dupUsernameUpdate).2 = twoUserStore :=
  ⟨by decide, by decide, by decide⟩

/-- C6: the production create route does answer 201 with the Public projection
of the stored record (assigned id 1 on the empty store), and `ItemCreate` has
no id field; but the Task variant's `create_task` returns the
`{'message': ..., 'task': ...}` dict, which can never validate against its own
`response_model=Task` (server error, and the route declares no 201 anyway),
and its payload type `Task` includes `id`, so a client-chosen id 5 is
persisted verbatim. -/
theorem c6_create_responses :
    (postItemsRoute emptyItemStore testItemCreate).1
      = .ok { name := "Test Item", description := none, price := 11,
              id := 1, owner_id := none }
    ∧ respStatus 201 (postItemsRoute emptyItemStore testItemCreate).1 = 201
    ∧ (postItemsRoute emptyItemStore testItemCreate).2.items
        = [{ name := "Test Item", description := none, price := 11,
             id := some 1, owner_id := none }]
    ∧ (create_task emptyTaskStore clientIdTask).1
        = .createdMsg "Task created successfully" clientIdTask
    ∧ taskRouteStatus true (create_task emptyTaskStore clientIdTask).1 = 500
    ∧ (create_task emptyTaskStore clientIdTask).2.tasks = [clientIdTask] :=
  ⟨by decide, by decide, by decide, by decide, by decide, by decide⟩

/-- C8: `ItemUpdate` redeclares `price` without the `gt=0` bound of
`ItemBase`, so request validation accepts `{"price": -1}`; `update_item`
applies it and commits, and the stored row then violates the model's own
declared constraint.  The create path does reject a non-positive price with
`ValidationError`, so only the update path breaks the invariant. -/
theorem c8_negative_price_update_accepted :
    validItemUpdate negPriceUpdate = true
    ∧ validItemCreate { name := "x", description := none, price := -1 } = false
    ∧ validItemCreate testItemCreate = true
    ∧ (patchItemRoute oneItemStore 1 negPriceUpdate).1
        = .ok { name := "Test Item", description := none, price := -1,
                id := 1, owner_id := none }
    ∧ respStatus 200 (patchItemRoute oneItemStore 1 negPriceUpdate).1 = 200
    ∧ (patchItemRoute oneItemStore 1 negPriceUpdate).2.get 1
        = some { name := "Test Item", description := none, price := -1,
                 id := some 1, owner_id := none } :=
  ⟨by decide, by decide, by decide, by decide, by decide, by decide⟩

/-- C5 counterexample: the Task variant's List route (`read_tasks`) takes no
pagination parameters at all and returns the whole table, so with 101 stored
tasks it returns 101 records — more than the 100-record ceiling the claim
asserts for the List operation of every entity. -/
theorem c5_counterexample_tasks_unpaginated :
    (read_tasks bigTaskStore).length = 101
    ∧ 100 < (read_tasks bigTaskStore).length := by
  constructor <;> simp [read_tasks, bigTaskStore]

/-- C2: updates are field-wise partial.  For an existing item, the PATCH
handler applies exactly the set fields of the payload: each set field takes
the payload value, each unset field keeps its prior value, and `id` and
`owner_id` (absent from `ItemUpdate`) are never touched; an empty payload
leaves the record bit-for-bit unchanged.  For the Task variant, a PUT assigns
the three required payload fields and never the id, so the id keeps its prior
value there as well. -/
theorem c2_partial_update_semantics
    (s : ItemStore) (i : Nat) (db : Item) (u : ItemUpdate)
    (ts : TaskStore) (j : Nat) (tdb : Task) (tu : Task)
    (h : s.get i = some db) (ht : ts.get j = some tdb) :
    (update_item s i u).1 = .ok (db.sqlmodel_update u).toPublic
    ∧ (db.sqlmodel_update u).name = u.name.getD db.name
    ∧ (db.sqlmodel_update u).description = u.description.getD db.description
    ∧ (db.sqlmodel_update u).price = u.price.getD db.price
    ∧ (db.sqlmodel_update u).id = db.id
    ∧ (db.sqlmodel_update u).owner_id = db.owner_id
    ∧ db.sqlmodel_update emptyItemUpdate = db
    ∧ (update_item s i emptyItemUpdate).1 = .ok db.toPublic
    ∧ (update_task ts j tu).1
        = .task { tdb with title := tu.title, description := tu.description,
                           completed := tu.completed }
    ∧ ({ tdb with title := tu.title, description := tu.description,
                  completed := tu.completed } : Task).id = tdb.id := by
  have hemp : db.sqlmodel_update emptyItemUpdate = db := rfl
  refine ⟨?_, rfl, rfl, rfl, rfl, rfl, hemp, ?_, ?_, rfl⟩
  · simp [update_item, h]
  · simp [update_item, h, hemp]
  · simp [update_task, ht]

/-- C2 witness: the theorem applied to the one-row fixtures, with a rename
payload for the item and a full PUT body for the task. -/
theorem c2_partial_update_semantics_witness :
    oneItemStore.get 1 = some storedItem5
    ∧ oneTaskStore.get 1 = some storedTask
    ∧ ((update_item oneItemStore 1 renameUpdate).1
          = .ok (storedItem5.sqlmodel_update renameUpdate).toPublic
        ∧ (storedItem5.sqlmodel_update renameUpdate).name
            = renameUpdate.name.getD storedItem5.name
        ∧ (storedItem5.sqlmodel_update renameUpdate).description
            = renameUpdate.description.getD storedItem5.description
        ∧ (storedItem5.sqlmodel_update renameUpdate).price
            = renameUpdate.price.getD storedItem5.price
        ∧ (storedItem5.sqlmodel_update renameUpdate).id = storedItem5.id
        ∧ (storedItem5.sqlmodel_update renameUpdate).owner_id = storedItem5.owner_id
        ∧ storedItem5.sqlmodel_update emptyItemUpdate = storedItem5
        ∧ (update_item oneItemStore 1 emptyItemUpdate).1 = .ok storedItem5.toPublic
        ∧ (update_task oneTaskStore 1 taskPutPayload).1
            = .task { storedTask with
                      title := taskPutPayload.title,
                      description := taskPutPayload.description,
                      completed := taskPutPayload.completed }
        ∧ ({ storedTask with
             title := taskPutPayload.title,
             description := taskPutPayload.description,
             completed := taskPutPayload.completed } : Task).id = storedTask.id) :=
  ⟨by decide, by decide,
   c2_partial_update_semantics oneItemStore 1 storedItem5 renameUpdate
     oneTaskStore 1 storedTask taskPutPayload (by decide) (by decide)⟩

/-- C4: when the store holds exactly one user with a given username, a Create
for a second user with that username is rejected with a raised
`HTTPException(400, "Username already registered")`, the store is unchanged,
and it still holds exactly one user with that username; likewise a Create
whose username is fresh but whose email duplicates the one stored email is
rejected with 400 "Email already registered" and the store keeps exactly one
user with that email. -/
theorem c4_duplicate_create_rejected
    (s : UserStore) (p q : UserCreate)
    (h1 : s.users.countP (fun u => u.username == p.username) = 1)
    (h2 : ∀ u ∈ s.users, u.username ≠ q.username)
    (h3 : s.users.countP (fun u => u.email == q.email) = 1) :
    (create_user s p).1 = .httpError 400 "Username already registered"
    ∧ (create_user s p).2 = s
    ∧ (create_user s p).2.users.countP (fun u => u.username == p.username) = 1
    ∧ (create_user s q).1 = .httpError 400 "Email already registered"
    ∧ (create_user s q).2 = s
    ∧ (create_user s q).2.users.countP (fun u => u.email == q.email) = 1 := by
  have hu : (s.users.find? (fun u => u.username == p.username)).isSome = true := by
    rw [List.find?_isSome]
    exact List.countP_pos_iff.mp (by omega)
  have hqn : s.users.find? (fun u => u.username == q.username) = none :=
    List.find?_eq_none.mpr (fun x hx => by simpa using h2 x hx)
  have he : (s.users.find? (fun u => u.email == q.email)).isSome = true := by
    rw [List.find?_isSome]
    exact List.countP_pos_iff.mp (by omega)
  refine ⟨?_, ?_, ?_, ?_, ?_, ?_⟩ <;>
    simp [create_user, hu, hqn, he, h1, h3]

/-- C4 witness: `oneUserStore` holds exactly `alice`; a create reusing the
username `alice` and a create reusing her email both bounce with 400 and leave
the store with exactly one such user. -/
theorem c4_duplicate_create_rejected_witness :
    oneUserStore.users.countP (fun u => u.username == dupUsernameCreate.username) = 1
    ∧ (∀ u ∈ oneUserStore.users, u.username ≠ dupEmailCreate.username)
    ∧ oneUserStore.users.countP (fun u => u.email == dupEmailCreate.email) = 1
    ∧ ((create_user oneUserStore dupUsernameCreate).1
          = .httpError 400 "Username already registered"
        ∧ (create_user oneUserStore dupUsernameCreate).2 = oneUserStore
        ∧ (create_user oneUserStore dupUsernameCreate).2.users.countP
            (fun u => u.username == dupUsernameCreate.username) = 1
        ∧ (create_user oneUserStore dupEmailCreate).1
            = .httpError 400 "Email already registered"
        ∧ (create_user oneUserStore dupEmailCreate).2 = oneUserStore
        ∧ (create_user oneUserStore dupEmailCreate).2.users.countP
            (fun u => u.email == dupEmailCreate.email) = 1) :=
  ⟨by decide, by decide, by decide,
   c4_duplicate_create_rejected oneUserStore dupUsernameCreate dupEmailCreate
     (by decide) (by decide) (by decide)⟩

/-- C5 (amended): for the Item and User entities the List routes behave as
claimed — with non-negative `offset` and `limit` in [0, 100] they return the
stored records in insertion order, skipping the first `offset` and returning
at most `limit` (hence never more than 100), and any `limit` above 100 is
rejected by the `Query(le=100)` validation with a 422.  The Task variant's
List takes no pagination parameters and returns the whole table (see the
counterexample for the over-100 case). -/
theorem c5_amended_pagination
    (s : ItemStore) (us : UserStore) (ts : TaskStore)
    (offset limit limitBig : Int)
    (h0 : 0 ≤ offset) (h1 : 0 ≤ limit) (h2 : limit ≤ 100) (h3 : 100 < limitBig) :
    getItemsRoute s offset limit
      = .ok (((s.items.drop offset.toNat).take limit.toNat).map Item.toPublic)
    ∧ (read_items s offset limit).length ≤ 100
    ∧ getItemsRoute s offset limitBig = .httpError 422 "validation error"
    ∧ getUsersRoute us offset limit
        = .ok (((us.users.drop offset.toNat).take limit.toNat).map User.toPublic)
    ∧ (read_users us offset limit).length ≤ 100
    ∧ getUsersRoute us offset limitBig = .httpError 422 "validation error"
    ∧ read_tasks ts = ts.tasks := by
  have hv : validLimit limit = true := decide_eq_true h2
  have hvb : validLimit limitBig = false := by
    simp only [validLimit, decide_eq_false_iff_not]
    omega
  have hoff : ¬ offset < 0 := not_lt.mpr h0
  have hlim : ¬ limit < 0 := not_lt.mpr h1
  have hsql : ∀ (α : Type) (rows : List α),
      sqlOffsetLimit rows offset limit = (rows.drop offset.toNat).take limit.toNat := by
    intro α rows
    simp [sqlOffsetLimit, hoff, hlim]
  have htake : limit.toNat ≤ 100 := Int.toNat_le.mpr h2
  refine ⟨?_, ?_, ?_, ?_, ?_, ?_, rfl⟩
  · simp [getItemsRoute, hv, read_items, hsql]
  · calc (read_items s offset limit).length
        = ((s.items.drop offset.toNat).take limit.toNat).length := by
          simp [read_items, hsql]
      _ ≤ limit.toNat := List.length_take_le _ _
      _ ≤ 100 := htake
  · simp [getItemsRoute, hvb]
  · simp [getUsersRoute, hv, read_users, hsql]
  · calc (read_users us offset limit).length
        = ((us.users.drop offset.toNat).take limit.toNat).length := by
          simp [read_users, hsql]
      _ ≤ limit.toNat := List.length_take_le _ _
      _ ≤ 100 := htake
  · simp [getUsersRoute, hvb]

/-- C5 witness: the amended theorem applied to the one-row fixtures with
`offset = 0`, `limit = 100` (the default) and an out-of-range `limit = 101`. -/
theorem c5_amended_pagination_witness :
    (0 : Int) ≤ 0 ∧ (0 : Int) ≤ 100 ∧ (100 : Int) ≤ 100 ∧ (100 : Int) < 101
    ∧ (getItemsRoute oneItemStore 0 100
          = .ok (((oneItemStore.items.drop (0 : Int).toNat).take (100 : Int).toNat).map
              Item.toPublic)
        ∧ (read_items oneItemStore 0 100).length ≤ 100
        ∧ getItemsRoute oneItemStore 0 101 = .httpError 422 "validation error"
        ∧ getUsersRoute oneUserStore 0 100
            = .ok (((oneUserStore.users.drop (0 : Int).toNat).take (100 : Int).toNat).map
                User.toPublic)
        ∧ (read_users oneUserStore 0 100).length ≤ 100
        ∧ getUsersRoute oneUserStore 0 101 = .httpError 422 "validation error"
        ∧ read_tasks oneTaskStore = oneTaskStore.tasks) :=
  ⟨by decide, by decide, by decide, by decide,
   c5_amended_pagination oneItemStore oneUserStore oneTaskStore 0 100 101
     (by decide) (by decide) (by decide) (by decide)⟩

/-- C7: the plaintext password is hashed before persisting, and no response
carries it.  A conflict-free create stores exactly the row built by
`User.fromCreate`, whose `hashed_password` is `get_password_hash` of the
payload password, and answers with that row's Public projection; an update
whose payload sets the password persists its hash; Get answers the Public
projection; List answers Public projections of the selected rows; the update
response is either the Public projection of the updated row or the uncaught
integrity error; and the Public projection is independent of
`hashed_password` — `UserPublic` declares no password field of any kind, so no
serialized response can carry either the plaintext or the hash. -/
theorem c7_password_hashed_and_never_exposed
    (s : UserStore) (p : UserCreate) (uid : Nat) (db : User) (up : UserUpdate) (pw : String)
    (hn : ∀ u ∈ s.users, u.username ≠ p.username)
    (he : ∀ u ∈ s.users, u.email ≠ p.email)
    (hg : s.get uid = some db)
    (hpw : up.password = some pw) :
    (create_user s p).2.users = s.users ++ [{ User.fromCreate p with id := some s.nextId }]
    ∧ (User.fromCreate p).hashed_password = get_password_hash p.password
    ∧ (create_user s p).1 = .ok ({ User.fromCreate p with id := some s.nextId }).toPublic
    ∧ (db.applyUpdate up).hashed_password = get_password_hash pw
    ∧ read_user s uid = .ok db.toPublic
    ∧ (∀ offset limit : Int,
        read_users s offset limit = (sqlOffsetLimit s.users offset limit).map User.toPublic)
    ∧ ((update_user s uid up).1 = .ok (db.applyUpdate up).toPublic
        ∨ (update_user s uid up).1 = .integrityError)
    ∧ (∀ u : User, ∀ hp : String, User.toPublic { u with hashed_password := hp } = u.toPublic) := by
  have hn' : s.users.find? (fun u => u.username == p.username) = none :=
    List.find?_eq_none.mpr (fun x hx => by simpa using hn x hx)
  have he' : s.users.find? (fun u => u.email == p.email) = none :=
    List.find?_eq_none.mpr (fun x hx => by simpa using he x hx)
  refine ⟨?_, rfl, ?_, ?_, ?_, fun o l => rfl, ?_, fun u hp => rfl⟩
  · simp [create_user, hn', he']
  · simp [create_user, hn', he']
  · simp [User.applyUpdate, hpw]
  · simp [read_user, hg]
  · cases husq : usersUniqueOk ((s.replaceById uid (db.applyUpdate up)).users) with
    | false => right; simp [update_user, hg, husq]
    | true => left; simp [update_user, hg, husq]

/-- C7 witness: the theorem applied to `oneUserStore` with a fresh create
payload and a password-setting update for `alice`; the inner quantifiers are
instantiated at concrete values. -/
theorem c7_password_hashed_and_never_exposed_witness :
    (∀ u ∈ oneUserStore.users, u.username ≠ freshUserCreate.username)
    ∧ (∀ u ∈ oneUserStore.users, u.email ≠ freshUserCreate.email)
    ∧ oneUserStore.get 1 = some aliceUser
    ∧ newPasswordUpdate.password = some "newpw"
    ∧ (create_user oneUserStore freshUserCreate).2.users
        = oneUserStore.users ++ [{ User.fromCreate freshUserCreate with id := some oneUserStore.nextId }]
    ∧ (User.fromCreate freshUserCreate).hashed_password
        = get_password_hash freshUserCreate.password
    ∧ (create_user oneUserStore freshUserCreate).1
        = .ok ({ User.fromCreate freshUserCreate with id := some oneUserStore.nextId }).toPublic
    ∧ (aliceUser.applyUpdate newPasswordUpdate).hashed_password = get_password_hash "newpw"
    ∧ read_user oneUserStore 1 = .ok aliceUser.toPublic
    ∧ read_users oneUserStore 0 100
        = (sqlOffsetLimit oneUserStore.users 0 100).map User.toPublic
    ∧ ((update_user oneUserStore 1 newPasswordUpdate).1
          = .ok (aliceUser.applyUpdate newPasswordUpdate).toPublic
        ∨ (update_user oneUserStore 1 newPasswordUpdate).1 = .integrityError)
    ∧ User.toPublic { aliceUser with hashed_password := "other" } = aliceUser.toPublic := by
  have H := c7_password_hashed_and_never_exposed oneUserStore freshUserCreate 1 aliceUser
    newPasswordUpdate "newpw" (by decide) (by decide) (by decide) (by decide)
  exact ⟨by decide, by decide, by decide, by decide, H.1, H.2.1, H.2.2.1, H.2.2.2.1,
    H.2.2.2.2.1, H.2.2.2.2.2.1 0 100, H.2.2.2.2.2.2.1, H.2.2.2.2.2.2.2 aliceUser "other"⟩

/-- C9: the login route raises the single
`HTTPException(401, "Incorrect username or password")` both when the username
matches no stored user and when it matches a user whose password verification
fails, so the two failure responses are identical and a caller cannot tell
"user not found" from "wrong secret" apart from the response. -/
theorem c9_login_failures_indistinguishable
    (s : UserStore) (u1 p1 u2 p2 : String)
    (h1 : ∀ u ∈ s.users, u.username ≠ u1)
    (h2 : ∀ u ∈ s.users, u.username = u2 → verify_password p2 u.hashed_password = false) :
    login_for_access_token s u1 p1 = .httpError 401 "Incorrect username or password"
    ∧ login_for_access_token s u2 p2 = .httpError 401 "Incorrect username or password"
    ∧ login_for_access_token s u1 p1 = login_for_access_token s u2 p2 := by
  have hn : s.users.find? (fun u => u.username == u1) = none :=
    List.find?_eq_none.mpr (fun x hx => by simpa using h1 x hx)
  have e1 : login_for_access_token s u1 p1 = .httpError 401 "Incorrect username or password" := by
    simp [login_for_access_token, hn]
  have e2 : login_for_access_token s u2 p2 = .httpError 401 "Incorrect username or password" := by
    cases hf : s.users.find? (fun u => u.username == u2) with
    | none => simp [login_for_access_token, hf]
    | some u =>
        have hv : verify_password p2 u.hashed_password = false :=
          h2 u (List.mem_of_find?_eq_some hf) (by simpa using List.find?_some hf)
        simp [login_for_access_token, hf, hv]
  exact ⟨e1, e2, e1.trans e2.symm⟩

/-- C9 witness: against the one-user store, a login as the unknown `nobody`
and a login as `alice` with a wrong password produce the same 401 response. -/
theorem c9_login_failures_indistinguishable_witness :
    (∀ u ∈ oneUserStore.users, u.username ≠ "nobody")
    ∧ (∀ u ∈ oneUserStore.users, u.username = "alice" →
        verify_password "wrongpw" u.hashed_password = false)
    ∧ login_for_access_token oneUserStore "nobody" "anypw"
        = .httpError 401 "Incorrect username or password"
    ∧ login_for_access_token oneUserStore "alice" "wrongpw"
        = .httpError 401 "Incorrect username or password"
    ∧ login_for_access_token oneUserStore "nobody" "anypw"
        = login_for_access_token oneUserStore "alice" "wrongpw" := by
  have H := c9_login_failures_indistinguishable oneUserStore "nobody" "anypw" "alice" "wrongpw"
    (by decide) (by decide)
  exact ⟨by decide, by decide, H.1, H.2.1, H.2.2⟩

/-- Every row of the table after `update_item` is either an old row or the
patched image of an old row. -/
theorem mem_update_item_items {s : ItemStore} {i : Nat} {u : ItemUpdate} {it : Item}
    (h : it ∈ (update_item s i u).2.items) :
    it ∈ s.items ∨ ∃ db ∈ s.items, it = db.sqlmodel_update u := by
  unfold update_item at h
  cases hg : s.get i with
  | none => rw [hg] at h; exact Or.inl h
  | some db =>
      rw [hg] at h
      simp only [ItemStore.replaceById, List.mem_map] at h
      rcases h with ⟨x, hx, hfx⟩
      by_cases hid : (x.id == some i) = true
      · rw [if_pos hid] at hfx
        exact Or.inr ⟨db, List.mem_of_find?_eq_some hg, hfx.symm⟩
      · rw [if_neg hid] at hfx
        exact Or.inl (hfx ▸ hx)

/-- The table after `create_item` is the old table with the freshly assigned
row appended. -/
theorem create_item_items (s : ItemStore) (p : ItemCreate) :
    (create_item s p).2.items
      = s.items ++ [{ Item.model_validate p with id := some s.nextId }] :=
  rfl

/-- `ItemUpdate` bodies always pass validation, so the PATCH route is the
handler. -/
theorem patchItemRoute_eq (s : ItemStore) (i : Nat) (u : ItemUpdate) :
    patchItemRoute s i u = update_item s i u :=
  rfl

/-- Every row of the table after the POST route is an old row or the freshly
assigned row built from the payload. -/
theorem mem_postItemsRoute_items {s : ItemStore} {p : ItemCreate} {it : Item}
    (h : it ∈ (postItemsRoute s p).2.items) :
    it ∈ s.items ∨ it = { Item.model_validate p with id := some s.nextId } := by
  unfold postItemsRoute at h
  by_cases hv : validItemCreate p = true
  · rw [if_pos hv, create_item_items, List.mem_append, List.mem_singleton] at h
    exact h
  · rw [if_neg hv] at h
    exact Or.inl h

/-- Deletion only removes rows. -/
theorem mem_delete_item_items {s : ItemStore} {i : Nat} {it : Item}
    (h : it ∈ (delete_item s i).2.items) : it ∈ s.items := by
  unfold delete_item at h
  cases hg : s.get i with
  | none => rw [hg] at h; exact h
  | some db =>
      rw [hg] at h
      simp only [List.mem_filter] at h
      exact h.1

/-- C10: `ItemCreate` and `ItemUpdate` carry no `owner_id`, `model_validate`
fills it with its declared default `None`, and `sqlmodel_update` never assigns
it; hence in every store reachable from the empty table through the public
item routes, every item's `owner_id` is `None`. -/
theorem c10_owner_id_always_none (s : ItemStore) (h : itemApiReachable s) :
    ∀ it ∈ s.items, it.owner_id = none := by
  induction h with
  | refl =>
      intro it hit
      simp [emptyItemStore] at hit
  | tail _ step ih =>
      cases step with
      | create p =>
          intro it hit
          rcases mem_postItemsRoute_items hit with hmem | hnew
          · exact ih it hmem
          · rw [hnew]
            rfl
      | update i u =>
          intro it hit
          rw [patchItemRoute_eq] at hit
          rcases mem_update_item_items hit with hmem | ⟨db, hdb, heq⟩
          · exact ih it hmem
          · have hpres : (db.sqlmodel_update u).owner_id = db.owner_id := rfl
            rw [heq, hpres]
            exact ih db hdb
      | delete i =>
          intro it hit
          exact ih it (mem_delete_item_items hit)

/-- C10 witness: the store obtained from the empty table by one valid create
is reachable, and the theorem yields that each of its items (concretely, the
single stored row) has `owner_id = None`. -/
theorem c10_owner_id_always_none_witness :
    itemApiReachable (postItemsRoute emptyItemStore testItemCreate).2
    ∧ (∀ it ∈ (postItemsRoute emptyItemStore testItemCreate).2.items, it.owner_id = none) :=
  have hr : itemApiReachable (postItemsRoute emptyItemStore testItemCreate).2 :=
    Relation.ReflTransGen.single (ItemApiStep.create emptyItemStore testItemCreate)
  ⟨hr, c10_owner_id_always_none _ hr⟩

end Spec2Proof
